import Mathlib

/-!
# MPS tensor allocation (`aten/src/ATen/mps/EmptyTensor.cpp`)

A shallow embedding of the four functions of `at::detail` defined in
`EmptyTensor.cpp`:

* `empty_mps` (discrete arguments) and `empty_mps_options` (options bundle),
* `empty_strided_mps` (discrete arguments) and `empty_strided_mps_options`
  (options bundle).

The backend allocator is explicit state: every function takes the allocator
and returns the allocator it leaves behind together with either a tensor
handle or an error. 64-bit machine integers are `Int` with an explicit
wrap-around (`wrapI64`) at the places where the source stores into `int64_t`.
-/

namespace ATen

/-! ## Data model -/

/-- Element kinds of `c10::ScalarType`. -/
inductive ScalarType where
  | Byte | Char | Short | Int | Long | Half | Float | Double
  | ComplexHalf | ComplexFloat | ComplexDouble | Bool | BFloat16
  deriving DecidableEq, Repr

/-- Tensor layouts of `c10::Layout`. -/
inductive Layout where
  | Strided | Sparse | SparseCsr | Mkldnn | SparseCsc | SparseBsr | SparseBsc
  deriving DecidableEq, Repr

/-- Device kinds of `c10::DeviceType` (the ones relevant here). -/
inductive DeviceType where
  | CPU | CUDA | MPS | Meta
  deriving DecidableEq, Repr

/-- A device: kind and index, as `c10::Device`. -/
structure Device where
  type : DeviceType
  index : Int
  deriving DecidableEq, Repr

/-- Memory formats of `c10::MemoryFormat`. -/
inductive MemoryFormat where
  | Contiguous | Preserve | ChannelsLast | ChannelsLast3d
  deriving DecidableEq, Repr

/-- Dispatch keys (only the backend tag matters here). -/
inductive DispatchKey where
  | CPU | CUDA | MPS
  deriving DecidableEq, Repr

/-- The typed failures a call can raise. `NotImplemented` is what
`TORCH_CHECK_NOT_IMPLEMENTED` raises, `InvalidArgument` is the failure of
`check_size_nonnegative`, `InternalAssert` the failure of
`TORCH_INTERNAL_ASSERT` and of `TORCH_INTERNAL_ASSERT_DEBUG_ONLY`. -/
inductive Error where
  | NotImplemented | InvalidArgument | InternalAssert
  deriving DecidableEq, Repr

/-- What the translation unit takes from its build and from the process-wide
defaults: whether debug-only assertions are compiled in (`NDEBUG` not
defined), the device and dtype an absent option resolves to, and the stride
rule of the memory formats other than `Contiguous`. -/
structure Runtime where
  debug : Bool
  default_device : Device
  default_dtype : ScalarType
  format_strides : MemoryFormat → List Int → List Int

/-- A pointer handed out by the allocator, identified by the position of its
request in the allocator's log. -/
structure DataPtr where
  id : Nat
  deriving DecidableEq, Repr

/-- The backend allocator as explicit state: the byte sizes of the requests
it has received, oldest first. -/
structure MPSAllocator where
  requests : List Int
  deriving DecidableEq, Repr

/-- One allocation request: the request is logged and a fresh pointer
returned. -/
def MPSAllocator.allocate (a : MPSAllocator) (n : Int) : DataPtr × MPSAllocator :=
  (⟨a.requests.length⟩, ⟨a.requests ++ [n]⟩)

/-- A storage buffer: byte length, data pointer, resizable flag
(`c10::StorageImpl` built with `use_byte_size_t`). -/
structure StorageImpl where
  size_bytes : Int
  data_ptr : DataPtr
  resizable : Bool
  deriving DecidableEq, Repr

/-- A tensor handle: storage, backend tag, element type, shape, stride and
cached element count (`c10::TensorImpl`). -/
structure TensorImpl where
  storage : StorageImpl
  key : DispatchKey
  dtype : ScalarType
  sizes : List Int
  strides : List Int
  numel : Int
  deriving DecidableEq, Repr

/-- Equality of call results is decidable. -/
instance : DecidableEq (Except Error TensorImpl) := fun a b =>
  match a, b with
  | .ok x, .ok y =>
    if h : x = y then isTrue (congrArg Except.ok h) else isFalse (fun e => h (Except.ok.inj e))
  | .error x, .error y =>
    if h : x = y then isTrue (congrArg Except.error h)
    else isFalse (fun e => h (Except.error.inj e))
  | .ok _, .error _ => isFalse (fun e => Except.noConfusion e)
  | .error _, .ok _ => isFalse (fun e => Except.noConfusion e)

/-! ## Machine integers -/

/-- The value an `int64_t` holds after storing the integer `x`: two's
complement wrap-around into `[-2^63, 2^63)`. -/
def wrapI64 (x : Int) : Int := (x + 2 ^ 63) % 2 ^ 64 - 2 ^ 63

/-! ## Helpers of the tensor runtime used by `EmptyTensor.cpp` -/

/-- Modelled from the spec: `scalarTypeToTypeMeta(dtype).itemsize()` is a
table of `c10`, absent from the sources at hand; every element kind has "an
associated fixed byte width" (float32 is 4 bytes, int64 is 8, bool is 1,
float16 is 2). -/
def itemsize : ScalarType → Int
  | .Byte => 1 | .Char => 1 | .Short => 2 | .Int => 4 | .Long => 8
  | .Half => 2 | .Float => 4 | .Double => 8
  | .ComplexHalf => 4 | .ComplexFloat => 8 | .ComplexDouble => 16
  | .Bool => 1 | .BFloat16 => 2

/-- The device-resolution utility `device_or_default`: the given device, or
the default one. -/
def device_or_default (rt : Runtime) (device_opt : Option Device) : Device :=
  device_opt.getD rt.default_device

/-- The dtype-resolution utility `dtype_or_default`. -/
def dtype_or_default (rt : Runtime) (dtype_opt : Option ScalarType) : ScalarType :=
  dtype_opt.getD rt.default_dtype

/-- Modelled from the spec: `layout_or_default` is declared in `c10`, absent
from the sources at hand; the default layout is "the standard strided
layout" (a call with default options passes the layout check). -/
def layout_or_default (layout_opt : Option Layout) : Layout :=
  layout_opt.getD Layout.Strided

/-- The test `device.is_mps()`. -/
def Device.is_mps (d : Device) : Bool := d.type == DeviceType.MPS

/-- `TORCH_INTERNAL_ASSERT(cond)`: active in every build. -/
def TORCH_INTERNAL_ASSERT (cond : Bool) : Except Error Unit :=
  if cond then .ok () else .error Error.InternalAssert

/-- `TORCH_INTERNAL_ASSERT_DEBUG_ONLY(cond)`: compiled out unless the build
is a debug build. -/
def TORCH_INTERNAL_ASSERT_DEBUG_ONLY (rt : Runtime) (cond : Bool) : Except Error Unit :=
  if rt.debug then TORCH_INTERNAL_ASSERT cond else .ok ()

/-- `TORCH_CHECK_NOT_IMPLEMENTED(cond, msg)`. -/
def TORCH_CHECK_NOT_IMPLEMENTED (cond : Bool) : Except Error Unit :=
  if cond then .ok () else .error Error.NotImplemented

/-- Modelled from the spec: `check_size_nonnegative` is defined outside the
sources at hand; "all shape dimensions must be ≥ 0 (negative dimension fails
with an InvalidArgument error)". -/
def check_size_nonnegative (size : List Int) : Except Error Unit :=
  if size.all (fun x => decide (0 ≤ x)) then .ok () else .error Error.InvalidArgument

/-- Modelled from the spec: `c10::multiply_integers` is defined outside the
sources at hand; "element count = product of all shape dimensions (empty
shape ⇒ 1)". The accumulation runs left to right from 1. -/
def multiply_integers (size : List Int) : Int :=
  size.foldl (fun acc d => acc * d) 1

/-- Modelled from the spec: the contiguous restride of `TensorImpl` is
defined outside the sources at hand; in the standard layout "each
dimension's stride equals the product of sizes of all faster-varying
dimensions (row-major convention)". The strides are accumulated from the
last dimension backwards, starting at 1. -/
def contiguous_strides (sizes : List Int) : List Int :=
  (sizes.foldr (fun d (acc : List Int × Int) => (acc.2 :: acc.1, acc.2 * d)) ([], 1)).1

/-- Modelled from the spec: `detail::make_tensor<TensorImpl>(storage, key,
dtype)` is defined outside the sources at hand; the fresh handle has the
"built-in zero-dimension default" shape `[0]` (the source comments "Default
TensorImpl has size [0]"), with the stride and element count of that
shape. -/
def make_tensor (storage : StorageImpl) (key : DispatchKey) (dtype : ScalarType) : TensorImpl :=
  { storage := storage, key := key, dtype := dtype, sizes := [0], strides := [1], numel := 0 }

/-- The strides a memory format gives a shape: the contiguous rule for
`Contiguous`, the rule of the runtime for the other formats. -/
def strides_for (rt : Runtime) (memory_format : MemoryFormat) (sizes : List Int) : List Int :=
  match memory_format with
  | .Contiguous => contiguous_strides sizes
  | other => rt.format_strides other sizes

/-- Modelled from the spec: `TensorImpl::empty_tensor_restride` is defined
outside the sources at hand; it applies the memory format "by recomputing
strides consistent with that format over the assigned shape". -/
def TensorImpl.empty_tensor_restride (rt : Runtime) (t : TensorImpl) (memory_format : MemoryFormat) :
    TensorImpl :=
  { t with strides := strides_for rt memory_format t.sizes }

/-- Modelled from the spec: `TensorImpl::set_sizes_contiguous` is defined
outside the sources at hand; it does "explicitly set the handle's shape to
the requested shape", refreshing the element count and the contiguous
strides. -/
def TensorImpl.set_sizes_contiguous (t : TensorImpl) (size : List Int) : TensorImpl :=
  { t with sizes := size, numel := multiply_integers size, strides := contiguous_strides size }

/-! ## `empty_mps` -/

/-- The discrete-argument `at::detail::empty_mps` (lines 11-50). -/
def empty_mps (rt : Runtime) (size : List Int) (dtype_opt : Option ScalarType)
    (layout_opt : Option Layout) (device_opt : Option Device) (_pin_memory_opt : Option Bool)
    (memory_format_opt : Option MemoryFormat) (allocator : MPSAllocator) :
    Except Error TensorImpl × MPSAllocator :=
  let device := device_or_default rt device_opt
  match TORCH_INTERNAL_ASSERT_DEBUG_ONLY rt (device.type == DeviceType.MPS) with
  | .error e => (.error e, allocator)
  | .ok _ =>
  match TORCH_CHECK_NOT_IMPLEMENTED (layout_or_default layout_opt == Layout.Strided) with
  | .error e => (.error e, allocator)
  | .ok _ =>
  match check_size_nonnegative size with
  | .error e => (.error e, allocator)
  | .ok _ =>
    let nelements : Int := wrapI64 (multiply_integers size)
    let dtype := dtype_or_default rt dtype_opt
    let size_bytes : Int := wrapI64 (nelements * itemsize dtype)
    let (ptr, allocator1) := allocator.allocate size_bytes
    let storage_impl : StorageImpl := { size_bytes := size_bytes, data_ptr := ptr, resizable := true }
    let tensor := make_tensor storage_impl DispatchKey.MPS dtype
    -- Default TensorImpl has size [0]
    let tensor := if size.length != 1 || size.getD 0 0 != 0 then tensor.set_sizes_contiguous size
      else tensor
    let memory_format := memory_format_opt.getD MemoryFormat.Contiguous
    (.ok (tensor.empty_tensor_restride rt memory_format), allocator1)

/-- The variant of `empty_mps` that always assigns the shape: the same code
with the test around `set_sizes_contiguous` removed. It is what the skip in
`empty_mps` is compared with. -/
def empty_mps_always_set (rt : Runtime) (size : List Int) (dtype_opt : Option ScalarType)
    (layout_opt : Option Layout) (device_opt : Option Device) (_pin_memory_opt : Option Bool)
    (memory_format_opt : Option MemoryFormat) (allocator : MPSAllocator) :
    Except Error TensorImpl × MPSAllocator :=
  let device := device_or_default rt device_opt
  match TORCH_INTERNAL_ASSERT_DEBUG_ONLY rt (device.type == DeviceType.MPS) with
  | .error e => (.error e, allocator)
  | .ok _ =>
  match TORCH_CHECK_NOT_IMPLEMENTED (layout_or_default layout_opt == Layout.Strided) with
  | .error e => (.error e, allocator)
  | .ok _ =>
  match check_size_nonnegative size with
  | .error e => (.error e, allocator)
  | .ok _ =>
    let nelements : Int := wrapI64 (multiply_integers size)
    let dtype := dtype_or_default rt dtype_opt
    let size_bytes : Int := wrapI64 (nelements * itemsize dtype)
    let (ptr, allocator1) := allocator.allocate size_bytes
    let storage_impl : StorageImpl := { size_bytes := size_bytes, data_ptr := ptr, resizable := true }
    let tensor := make_tensor storage_impl DispatchKey.MPS dtype
    let tensor := tensor.set_sizes_contiguous size
    let memory_format := memory_format_opt.getD MemoryFormat.Contiguous
    (.ok (tensor.empty_tensor_restride rt memory_format), allocator1)

/-! ## `empty_strided_mps` -/

/-- The linear offset, in elements, of an index tuple under a stride. -/
def offset (index stride : List Int) : Int :=
  (List.zipWith (fun i s => i * s) index stride).sum

/-- An index tuple is valid for a shape when it has the shape's length and
every index lies in `[0, dim)`. -/
def valid_index : List Int → List Int → Bool
  | [], [] => true
  | i :: index, d :: size => decide (0 ≤ i) && decide (i < d) && valid_index index size
  | _, _ => false

/-- The largest valid index tuple of a shape: `dim - 1` in every dimension. -/
def last_index (size : List Int) : List Int := size.map (fun d => d - 1)

/-- Modelled from the spec: the storage-size utility `computeStorageNbytes`
is defined outside the sources at hand; the byte size is "the minimum
contiguous byte span that accommodates the maximum offset reachable by any
valid index tuple under the given stride", that is
"`1 + Σ (dim_i - 1) × stride_i`, scaled by element byte width". -/
def computeStorageNbytes (size stride : List Int) (itemsize_bytes : Int) : Int :=
  itemsize_bytes * (1 + (List.zipWith (fun d s => (d - 1) * s) size stride).sum)

/-- Modelled from the spec: `at::detail::empty_strided_generic` is defined
outside the sources at hand; it computes the byte size by the storage-size
rule, does "request buffer from backend allocator", and does "construct
TensorHandle directly with the given explicit shape and stride (no
restriding step)". -/
def empty_strided_generic (size stride : List Int) (allocator : MPSAllocator) (key : DispatchKey)
    (dtype : ScalarType) : Except Error TensorImpl × MPSAllocator :=
  let size_bytes := computeStorageNbytes size stride (itemsize dtype)
  let (ptr, allocator1) := allocator.allocate size_bytes
  let storage_impl : StorageImpl := { size_bytes := size_bytes, data_ptr := ptr, resizable := true }
  let tensor := make_tensor storage_impl key dtype
  (.ok { tensor with sizes := size, strides := stride, numel := multiply_integers size }, allocator1)

/-- The discrete-argument `at::detail::empty_strided_mps` (lines 63-75). The
device guard has no effect on the allocator or on the handle. -/
def empty_strided_mps (rt : Runtime) (size stride : List Int) (dtype : ScalarType)
    (device_opt : Option Device) (allocator : MPSAllocator) :
    Except Error TensorImpl × MPSAllocator :=
  let device := device_or_default rt device_opt
  match TORCH_INTERNAL_ASSERT device.is_mps with
  | .error e => (.error e, allocator)
  | .ok _ => empty_strided_generic size stride allocator DispatchKey.MPS dtype

/-- A production build whose defaults are the CPU device and float32, with
the non-contiguous formats left at the contiguous rule. -/
def production : Runtime :=
  { debug := false, default_device := ⟨DeviceType.CPU, 0⟩, default_dtype := ScalarType.Float,
    format_strides := fun _ sizes => contiguous_strides sizes }

/-- A debug build with the same defaults as `production`. -/
def debug_build : Runtime := { production with debug := true }

/-- The MPS device. -/
def mps : Device := ⟨DeviceType.MPS, 0⟩

/-- The CPU device. -/
def cpu : Device := ⟨DeviceType.CPU, 0⟩

/-- An allocator that has received no request yet. -/
def fresh : MPSAllocator := ⟨[]⟩

/-! ## Arithmetic of `int64_t` -/

theorem wrapI64_of_fits (x : Int) (hlo : -(2 ^ 63) ≤ x) (hhi : x < 2 ^ 63) : wrapI64 x = x := by
  unfold wrapI64
  omega

theorem wrapI64_congr (a b k : Int) (h : a = b + 2 ^ 64 * k) : wrapI64 a = wrapI64 b := by
  unfold wrapI64
  subst h
  have : b + 2 ^ 64 * k + 2 ^ 63 = (b + 2 ^ 63) + 2 ^ 64 * k := by ring
  rw [this, Int.add_mul_emod_self_left]

theorem wrapI64_mul_wrapI64 (a b : Int) : wrapI64 (wrapI64 a * b) = wrapI64 (a * b) := by
  apply wrapI64_congr _ _ (-((a + 2 ^ 63) / 2 ^ 64) * b)
  unfold wrapI64
  rw [Int.emod_def]
  ring

theorem multiply_integers_from (size : List Int) (a : Int) :
    size.foldl (fun acc d => acc * d) a = a * size.prod := by
  induction size generalizing a with
  | nil => simp
  | cons d rest ih => simp [List.foldl_cons, ih, mul_assoc]

theorem multiply_integers_eq_prod (size : List Int) : multiply_integers size = size.prod := by
  unfold multiply_integers
  rw [multiply_integers_from, one_mul]

theorem size_bytes_of_fits (size : List Int) (w : Int) (hlo : 0 ≤ size.prod * w)
    (hhi : size.prod * w < 2 ^ 63) :
    wrapI64 (wrapI64 (multiply_integers size) * w) = size.prod * w := by
  rw [wrapI64_mul_wrapI64, multiply_integers_eq_prod]
  exact wrapI64_of_fits _ (by omega) hhi

theorem itemsize_pos (dtype : ScalarType) : 0 < itemsize dtype := by
  cases dtype <;> decide

theorem prod_nonneg_of_nonneg (size : List Int) (h : ∀ d ∈ size, 0 ≤ d) : 0 ≤ size.prod := by
  induction size with
  | nil => simp
  | cons d rest ih =>
    rw [List.prod_cons]
    exact mul_nonneg (h d (List.mem_cons_self _ _))
      (ih (fun x hx => h x (List.mem_cons_of_mem _ hx)))

/-! ## The three checks of `empty_mps`, in the order of the source -/

theorem check_size_nonnegative_ok (size : List Int) (h : ∀ d ∈ size, 0 ≤ d) :
    check_size_nonnegative size = .ok () := by
  unfold check_size_nonnegative
  rw [if_pos]
  simpa using h

theorem check_size_nonnegative_error (size : List Int) (h : ∃ d ∈ size, d < 0) :
    check_size_nonnegative size = .error Error.InvalidArgument := by
  unfold check_size_nonnegative
  rw [if_neg]
  simpa using h

theorem debug_assert_passes (rt : Runtime) (device : Device)
    (h : rt.debug = false ∨ device.type = DeviceType.MPS) :
    TORCH_INTERNAL_ASSERT_DEBUG_ONLY rt (device.type == DeviceType.MPS) = .ok () := by
  unfold TORCH_INTERNAL_ASSERT_DEBUG_ONLY TORCH_INTERNAL_ASSERT
  rcases h with h | h
  · simp [h]
  · simp [h]

theorem debug_assert_fails (rt : Runtime) (device : Device)
    (hd : rt.debug = true) (h : device.type ≠ DeviceType.MPS) :
    TORCH_INTERNAL_ASSERT_DEBUG_ONLY rt (device.type == DeviceType.MPS)
      = .error Error.InternalAssert := by
  unfold TORCH_INTERNAL_ASSERT_DEBUG_ONLY TORCH_INTERNAL_ASSERT
  simp [hd, h]

theorem layout_check_passes (layout_opt : Option Layout)
    (h : layout_or_default layout_opt = Layout.Strided) :
    TORCH_CHECK_NOT_IMPLEMENTED (layout_or_default layout_opt == Layout.Strided) = .ok () := by
  simp [TORCH_CHECK_NOT_IMPLEMENTED, h]

theorem layout_check_fails (layout_opt : Option Layout)
    (h : layout_or_default layout_opt ≠ Layout.Strided) :
    TORCH_CHECK_NOT_IMPLEMENTED (layout_or_default layout_opt == Layout.Strided)
      = .error Error.NotImplemented := by
  simp [TORCH_CHECK_NOT_IMPLEMENTED, h]

theorem empty_mps_of_assert_fails (rt : Runtime) (size : List Int) (dtype_opt : Option ScalarType)
    (layout_opt : Option Layout) (device_opt : Option Device) (pin_memory_opt : Option Bool)
    (memory_format_opt : Option MemoryFormat) (allocator : MPSAllocator)
    (hd : rt.debug = true) (h : (device_or_default rt device_opt).type ≠ DeviceType.MPS) :
    empty_mps rt size dtype_opt layout_opt device_opt pin_memory_opt memory_format_opt allocator
      = (.error Error.InternalAssert, allocator) := by
  simp only [empty_mps, debug_assert_fails rt _ hd h]

theorem empty_mps_of_layout_fails (rt : Runtime) (size : List Int) (dtype_opt : Option ScalarType)
    (layout_opt : Option Layout) (device_opt : Option Device) (pin_memory_opt : Option Bool)
    (memory_format_opt : Option MemoryFormat) (allocator : MPSAllocator)
    (hdev : rt.debug = false ∨ (device_or_default rt device_opt).type = DeviceType.MPS)
    (hl : layout_or_default layout_opt ≠ Layout.Strided) :
    empty_mps rt size dtype_opt layout_opt device_opt pin_memory_opt memory_format_opt allocator
      = (.error Error.NotImplemented, allocator) := by
  simp only [empty_mps, debug_assert_passes rt _ hdev, layout_check_fails _ hl]

theorem empty_mps_of_negative (rt : Runtime) (size : List Int) (dtype_opt : Option ScalarType)
    (layout_opt : Option Layout) (device_opt : Option Device) (pin_memory_opt : Option Bool)
    (memory_format_opt : Option MemoryFormat) (allocator : MPSAllocator)
    (hdev : rt.debug = false ∨ (device_or_default rt device_opt).type = DeviceType.MPS)
    (hl : layout_or_default layout_opt = Layout.Strided) (hneg : ∃ d ∈ size, d < 0) :
    empty_mps rt size dtype_opt layout_opt device_opt pin_memory_opt memory_format_opt allocator
      = (.error Error.InvalidArgument, allocator) := by
  simp only [empty_mps, debug_assert_passes rt _ hdev, layout_check_passes _ hl,
    check_size_nonnegative_error _ hneg]

theorem skip_test_of_ne (size : List Int) (h : size ≠ [0]) :
    (size.length != 1 || size.getD 0 0 != 0) = true := by
  match size, h with
  | [], _ => rfl
  | [d], h =>
    have hd : d ≠ 0 := fun h0 => h (by rw [h0])
    simp [hd]
  | _ :: _ :: _, _ => simp

theorem empty_mps_of_checks_pass (rt : Runtime) (size : List Int) (dtype_opt : Option ScalarType)
    (layout_opt : Option Layout) (device_opt : Option Device) (pin_memory_opt : Option Bool)
    (memory_format_opt : Option MemoryFormat) (allocator : MPSAllocator)
    (hdev : rt.debug = false ∨ (device_or_default rt device_opt).type = DeviceType.MPS)
    (hl : layout_or_default layout_opt = Layout.Strided) (hnn : ∀ d ∈ size, 0 ≤ d) :
    empty_mps rt size dtype_opt layout_opt device_opt pin_memory_opt memory_format_opt allocator
      = (.ok
          { storage :=
              { size_bytes := wrapI64 (wrapI64 (multiply_integers size)
                  * itemsize (dtype_or_default rt dtype_opt)),
                data_ptr := ⟨allocator.requests.length⟩, resizable := true },
            key := DispatchKey.MPS,
            dtype := dtype_or_default rt dtype_opt,
            sizes := size,
            strides := strides_for rt (memory_format_opt.getD MemoryFormat.Contiguous) size,
            numel := multiply_integers size },
         ⟨allocator.requests ++ [wrapI64 (wrapI64 (multiply_integers size)
            * itemsize (dtype_or_default rt dtype_opt))]⟩) := by
  simp only [empty_mps, debug_assert_passes rt _ hdev, layout_check_passes _ hl,
    check_size_nonnegative_ok _ hnn]
  by_cases hs : size = [0]
  · subst hs
    simp [MPSAllocator.allocate, make_tensor, TensorImpl.empty_tensor_restride,
      multiply_integers]
  · simp only [skip_test_of_ne size hs, if_true]
    rfl

theorem contiguous_strides_aux (sizes : List Int) :
    (sizes.foldr (fun d (acc : List Int × Int) => (acc.2 :: acc.1, acc.2 * d)) ([], 1)).2
      = sizes.prod := by
  induction sizes with
  | nil => rfl
  | cons d rest ih =>
    rw [List.foldr_cons, List.prod_cons]
    show _ * d = d * rest.prod
    rw [ih, mul_comm]

theorem contiguous_strides_cons (d : Int) (rest : List Int) :
    contiguous_strides (d :: rest) = rest.prod :: contiguous_strides rest := by
  unfold contiguous_strides
  rw [List.foldr_cons]
  show _ :: _ = _
  rw [contiguous_strides_aux]

theorem contiguous_strides_length (sizes : List Int) :
    (contiguous_strides sizes).length = sizes.length := by
  induction sizes with
  | nil => rfl
  | cons d rest ih => simp [contiguous_strides_cons, ih]

theorem contiguous_strides_get (sizes : List Int) (i : Nat) (h : i < sizes.length) :
    (contiguous_strides sizes)[i]? = some (sizes.drop (i + 1)).prod := by
  induction sizes generalizing i with
  | nil => simp at h
  | cons d rest ih =>
    rw [contiguous_strides_cons]
    cases i with
    | zero => simp
    | succ j =>
      have hj : j < rest.length := by simpa using h
      simpa using ih j hj

theorem contiguous_strides_last (sizes : List Int) (h : sizes ≠ []) :
    (contiguous_strides sizes)[sizes.length - 1]? = some 1 := by
  have hpos : 0 < sizes.length := List.length_pos.mpr h
  rw [contiguous_strides_get sizes (sizes.length - 1) (by omega)]
  have : sizes.length - 1 + 1 = sizes.length := by omega
  rw [this, List.drop_length]
  rfl

theorem empty_mps_cases (rt : Runtime) (size : List Int) (dtype_opt : Option ScalarType)
    (layout_opt : Option Layout) (device_opt : Option Device) (pin_memory_opt : Option Bool)
    (memory_format_opt : Option MemoryFormat) (allocator : MPSAllocator) :
    (∃ e, empty_mps rt size dtype_opt layout_opt device_opt pin_memory_opt memory_format_opt
        allocator = (.error e, allocator)) ∨
    ((∀ d ∈ size, 0 ≤ d) ∧
      ∃ t, empty_mps rt size dtype_opt layout_opt device_opt pin_memory_opt memory_format_opt
        allocator
        = (.ok t, ⟨allocator.requests ++ [wrapI64 (size.prod
            * itemsize (dtype_or_default rt dtype_opt))]⟩)) := by
  by_cases hdev : rt.debug = false ∨ (device_or_default rt device_opt).type = DeviceType.MPS
  · by_cases hl : layout_or_default layout_opt = Layout.Strided
    · by_cases hnn : ∀ d ∈ size, 0 ≤ d
      · right
        rw [empty_mps_of_checks_pass rt size dtype_opt layout_opt device_opt pin_memory_opt
          memory_format_opt allocator hdev hl hnn, wrapI64_mul_wrapI64,
          multiply_integers_eq_prod]
        exact ⟨hnn, _, rfl⟩
      · left
        have hneg : ∃ d ∈ size, d < 0 := by
          push_neg at hnn
          exact hnn
        exact ⟨_, empty_mps_of_negative rt size dtype_opt layout_opt device_opt pin_memory_opt
          memory_format_opt allocator hdev hl hneg⟩
    · left
      exact ⟨_, empty_mps_of_layout_fails rt size dtype_opt layout_opt device_opt pin_memory_opt
        memory_format_opt allocator hdev hl⟩
  · left
    have hd : rt.debug = true := by
      cases hb : rt.debug
      · exact absurd (Or.inl hb) hdev
      · rfl
    have hm : (device_or_default rt device_opt).type ≠ DeviceType.MPS :=
      fun h => hdev (Or.inr h)
    exact ⟨_, empty_mps_of_assert_fails rt size dtype_opt layout_opt device_opt pin_memory_opt
      memory_format_opt allocator hd hm⟩

/-! ## The claims about `empty_mps` -/

/-- C1, as amended: for every shape whose dimensions are all non-negative and
every dtype, with the strided layout (and the debug-only device assertion not
firing: a production build, or an MPS device), whenever
`product(S) × itemsize(D)` is below `2^63`, `empty_mps` succeeds and returns
a handle whose shape is `S` and whose storage byte size is
`product(S) × itemsize(D)`; for the empty shape that is `itemsize(D)`. -/
theorem empty_mps_shape_and_size_bytes (rt : Runtime) (size : List Int)
    (dtype_opt : Option ScalarType) (layout_opt : Option Layout) (device_opt : Option Device)
    (pin_memory_opt : Option Bool) (memory_format_opt : Option MemoryFormat)
    (allocator : MPSAllocator)
    (hnn : ∀ d ∈ size, 0 ≤ d)
    (hl : layout_or_default layout_opt = Layout.Strided)
    (hdev : rt.debug = false ∨ (device_or_default rt device_opt).type = DeviceType.MPS)
    (hfit : size.prod * itemsize (dtype_or_default rt dtype_opt) < 2 ^ 63) :
    ∃ t, (empty_mps rt size dtype_opt layout_opt device_opt pin_memory_opt memory_format_opt
        allocator).1 = .ok t ∧
      t.sizes = size ∧
      t.storage.size_bytes = size.prod * itemsize (dtype_or_default rt dtype_opt) ∧
      (size = [] → t.storage.size_bytes = itemsize (dtype_or_default rt dtype_opt)) := by
  have hlo : 0 ≤ size.prod * itemsize (dtype_or_default rt dtype_opt) :=
    mul_nonneg (prod_nonneg_of_nonneg size hnn) (le_of_lt (itemsize_pos _))
  have hb := size_bytes_of_fits size (itemsize (dtype_or_default rt dtype_opt)) hlo hfit
  refine ⟨_, by rw [empty_mps_of_checks_pass rt size dtype_opt layout_opt device_opt
    pin_memory_opt memory_format_opt allocator hdev hl hnn], rfl, hb, ?_⟩
  intro hs
  show wrapI64 (wrapI64 (multiply_integers size) * itemsize (dtype_or_default rt dtype_opt)) = _
  rw [hb, hs, List.prod_nil, one_mul]

/-- C1, witness: the shape `[2, 3]` of float32 in a production build. -/
theorem empty_mps_shape_and_size_bytes_witness :
    ∃ t, (empty_mps production [2, 3] (some ScalarType.Float) none none none none fresh).1
        = .ok t ∧
      t.sizes = [2, 3] ∧
      t.storage.size_bytes = ([2, 3] : List Int).prod * itemsize
        (dtype_or_default production (some ScalarType.Float)) ∧
      (([2, 3] : List Int) = [] → t.storage.size_bytes
        = itemsize (dtype_or_default production (some ScalarType.Float))) :=
  empty_mps_shape_and_size_bytes production [2, 3] (some ScalarType.Float) none none none none
    fresh (by decide) rfl (Or.inl rfl) (by decide)

/-- C1, counterexample: the non-negative shape `[2^62]` of float32 with the
strided layout on the MPS device. The call succeeds with shape `[2^62]`, and
the storage byte size is 0, not `product(S) × itemsize(D) = 2^64`: the
byte size is computed in 64-bit integers. -/
theorem empty_mps_size_bytes_wraps :
    (∀ d ∈ ([2 ^ 62] : List Int), 0 ≤ d) ∧
    ∃ t, (empty_mps production [2 ^ 62] (some ScalarType.Float) (some Layout.Strided) (some mps)
        none none fresh).1 = .ok t ∧
      t.sizes = [2 ^ 62] ∧
      t.storage.size_bytes = 0 ∧
      t.storage.size_bytes ≠ ([2 ^ 62] : List Int).prod * itemsize ScalarType.Float :=
  ⟨by decide, _, rfl, rfl, by decide, by decide⟩

/-- C2: for every shape (negative dimensions included), every dtype and
every layout other than `Strided`, `empty_mps` fails with `NotImplemented`
(the debug-only device assertion not firing: a production build, or an MPS
device), and the allocator is left as it was. -/
theorem empty_mps_not_implemented (rt : Runtime) (size : List Int)
    (dtype_opt : Option ScalarType) (layout_opt : Option Layout) (device_opt : Option Device)
    (pin_memory_opt : Option Bool) (memory_format_opt : Option MemoryFormat)
    (allocator : MPSAllocator)
    (hdev : rt.debug = false ∨ (device_or_default rt device_opt).type = DeviceType.MPS)
    (hl : layout_or_default layout_opt ≠ Layout.Strided) :
    empty_mps rt size dtype_opt layout_opt device_opt pin_memory_opt memory_format_opt allocator
      = (.error Error.NotImplemented, allocator) :=
  empty_mps_of_layout_fails rt size dtype_opt layout_opt device_opt pin_memory_opt
    memory_format_opt allocator hdev hl

/-- C2, witness: the shape `[3, -1]` with the sparse layout on the MPS
device in a debug build. -/
theorem empty_mps_not_implemented_witness :
    empty_mps debug_build [3, -1] (some ScalarType.Long) (some Layout.Sparse) (some mps) none
      none fresh = (.error Error.NotImplemented, fresh) :=
  empty_mps_not_implemented debug_build [3, -1] (some ScalarType.Long) (some Layout.Sparse)
    (some mps) none none fresh (Or.inr rfl) (by decide)

/-- C3, as amended: for every shape that contains a negative dimension, with
the strided layout (and the debug-only device assertion not firing: a
production build, or an MPS device), and every choice of dtype, pin-memory
and memory-format options, `empty_mps` fails with `InvalidArgument`. -/
theorem empty_mps_invalid_argument (rt : Runtime) (size : List Int)
    (dtype_opt : Option ScalarType) (layout_opt : Option Layout) (device_opt : Option Device)
    (pin_memory_opt : Option Bool) (memory_format_opt : Option MemoryFormat)
    (allocator : MPSAllocator)
    (hneg : ∃ d ∈ size, d < 0)
    (hl : layout_or_default layout_opt = Layout.Strided)
    (hdev : rt.debug = false ∨ (device_or_default rt device_opt).type = DeviceType.MPS) :
    empty_mps rt size dtype_opt layout_opt device_opt pin_memory_opt memory_format_opt allocator
      = (.error Error.InvalidArgument, allocator) :=
  empty_mps_of_negative rt size dtype_opt layout_opt device_opt pin_memory_opt
    memory_format_opt allocator hdev hl hneg

/-- C3, witness: the shape `[2, -1]` with default options in a production
build. -/
theorem empty_mps_invalid_argument_witness :
    empty_mps production [2, -1] none none none none none fresh
      = (.error Error.InvalidArgument, fresh) :=
  empty_mps_invalid_argument production [2, -1] none none none none none fresh
    ⟨-1, by decide, by decide⟩ rfl (Or.inl rfl)

/-- C3, counterexample: the shape `[-1]` contains a negative dimension, and
with the sparse layout `empty_mps` fails with `NotImplemented`, not with
`InvalidArgument`: the layout is checked before the shape. -/
theorem empty_mps_negative_not_invalid_argument :
    (∃ d ∈ ([-1] : List Int), d < 0) ∧
    (empty_mps production [-1] none (some Layout.Sparse) (some mps) none none fresh).1
      = .error Error.NotImplemented ∧
    (empty_mps production [-1] none (some Layout.Sparse) (some mps) none none fresh).1
      ≠ .error Error.InvalidArgument :=
  ⟨⟨-1, by decide, by decide⟩, rfl, by decide⟩

/-- C8: for every non-negative shape `S`, with no memory format given (and
the layout strided, the debug-only device assertion not firing), `empty_mps`
returns a handle whose strides have the length of `S`, each stride being the
product of the sizes of the later dimensions and the last one being 1; the
strides are `contiguous_strides S`, a function of `S` alone. -/
theorem empty_mps_default_strides (rt : Runtime) (size : List Int)
    (dtype_opt : Option ScalarType) (layout_opt : Option Layout) (device_opt : Option Device)
    (pin_memory_opt : Option Bool) (allocator : MPSAllocator)
    (hnn : ∀ d ∈ size, 0 ≤ d)
    (hl : layout_or_default layout_opt = Layout.Strided)
    (hdev : rt.debug = false ∨ (device_or_default rt device_opt).type = DeviceType.MPS) :
    ∃ t, (empty_mps rt size dtype_opt layout_opt device_opt pin_memory_opt none allocator).1
        = .ok t ∧
      t.strides.length = size.length ∧
      (∀ i, i < size.length → t.strides[i]? = some (size.drop (i + 1)).prod) ∧
      (size ≠ [] → t.strides[size.length - 1]? = some 1) ∧
      t.strides = contiguous_strides size := by
  refine ⟨_, by rw [empty_mps_of_checks_pass rt size dtype_opt layout_opt device_opt
    pin_memory_opt none allocator hdev hl hnn], ?_, ?_, ?_, rfl⟩
  · exact contiguous_strides_length size
  · exact fun i hi => contiguous_strides_get size i hi
  · exact fun hs => contiguous_strides_last size hs

/-- C8, witness: the shape `[2, 3, 4]` with default options in a production
build. -/
theorem empty_mps_default_strides_witness :
    ∃ t, (empty_mps production [2, 3, 4] none none none none none fresh).1 = .ok t ∧
      t.strides.length = ([2, 3, 4] : List Int).length ∧
      (∀ i, i < ([2, 3, 4] : List Int).length →
        t.strides[i]? = some (([2, 3, 4] : List Int).drop (i + 1)).prod) ∧
      (([2, 3, 4] : List Int) ≠ [] → t.strides[([2, 3, 4] : List Int).length - 1]? = some 1) ∧
      t.strides = contiguous_strides [2, 3, 4] :=
  empty_mps_default_strides production [2, 3, 4] none none none none fresh (by decide) rfl
    (Or.inl rfl)

/-- C9, as amended: with the allocator as explicit state, a successful call of
`empty_mps` issues exactly one allocation request, for the 64-bit value of
`product(S) × itemsize(D)`, which is `product(S) × itemsize(D)` itself
whenever that is below `2^63`; a call that fails issues no request and leaves
the allocator unchanged; and a call whose three checks pass is successful. -/
theorem empty_mps_allocation_requests (rt : Runtime) (size : List Int)
    (dtype_opt : Option ScalarType) (layout_opt : Option Layout) (device_opt : Option Device)
    (pin_memory_opt : Option Bool) (memory_format_opt : Option MemoryFormat)
    (allocator : MPSAllocator) :
    (∀ t, (empty_mps rt size dtype_opt layout_opt device_opt pin_memory_opt memory_format_opt
        allocator).1 = .ok t →
      (empty_mps rt size dtype_opt layout_opt device_opt pin_memory_opt memory_format_opt
        allocator).2.requests
        = allocator.requests ++ [wrapI64 (size.prod * itemsize (dtype_or_default rt dtype_opt))] ∧
      (size.prod * itemsize (dtype_or_default rt dtype_opt) < 2 ^ 63 →
        (empty_mps rt size dtype_opt layout_opt device_opt pin_memory_opt memory_format_opt
          allocator).2.requests
          = allocator.requests ++ [size.prod * itemsize (dtype_or_default rt dtype_opt)])) ∧
    (∀ e, (empty_mps rt size dtype_opt layout_opt device_opt pin_memory_opt memory_format_opt
        allocator).1 = .error e →
      (empty_mps rt size dtype_opt layout_opt device_opt pin_memory_opt memory_format_opt
        allocator).2 = allocator) ∧
    ((rt.debug = false ∨ (device_or_default rt device_opt).type = DeviceType.MPS) →
      layout_or_default layout_opt = Layout.Strided → (∀ d ∈ size, 0 ≤ d) →
      ∃ t, (empty_mps rt size dtype_opt layout_opt device_opt pin_memory_opt memory_format_opt
        allocator).1 = .ok t) := by
  refine ⟨?_, ?_, ?_⟩
  · intro t ht
    rcases empty_mps_cases rt size dtype_opt layout_opt device_opt pin_memory_opt
      memory_format_opt allocator with ⟨e, he⟩ | ⟨hnn, u, hu⟩
    · rw [he] at ht
      exact absurd ht (fun h => Except.noConfusion h)
    · rw [hu]
      refine ⟨rfl, fun hfit => ?_⟩
      have hlo : 0 ≤ size.prod * itemsize (dtype_or_default rt dtype_opt) :=
        mul_nonneg (prod_nonneg_of_nonneg size hnn) (le_of_lt (itemsize_pos _))
      rw [wrapI64_of_fits _ (by omega) hfit]
  · intro e he
    rcases empty_mps_cases rt size dtype_opt layout_opt device_opt pin_memory_opt
      memory_format_opt allocator with ⟨e1, he1⟩ | ⟨_, u, hu⟩
    · rw [he1]
    · rw [hu] at he
      exact absurd he (fun h => Except.noConfusion h)
  · intro hdev hl hnn
    exact ⟨_, by rw [empty_mps_of_checks_pass rt size dtype_opt layout_opt device_opt
      pin_memory_opt memory_format_opt allocator hdev hl hnn]⟩

/-- C9, counterexample: the non-negative shape `[2^31, 2^31]` of float64. The
call succeeds and issues one request, for 0 bytes, not for
`product(S) × itemsize(D) = 2^65` bytes. -/
theorem empty_mps_request_wraps :
    (∃ t, (empty_mps production [2 ^ 31, 2 ^ 31] (some ScalarType.Double) none (some mps) none
        none fresh).1 = .ok t) ∧
    (empty_mps production [2 ^ 31, 2 ^ 31] (some ScalarType.Double) none (some mps) none none
        fresh).2.requests = [0] ∧
    ([0] : List Int) ≠ [([2 ^ 31, 2 ^ 31] : List Int).prod * itemsize ScalarType.Double] :=
  ⟨⟨_, rfl⟩, by decide, by decide⟩

/-- C10: the skip of the shape assignment in `empty_mps` bears no behaviour.
The code and the variant that always calls `set_sizes_contiguous` return the
same result on every input; for a non-negative shape (layout strided, the
debug-only device assertion not firing) both succeed with handles of the same
shape, strides and element count; and for `[0]` with default options the
shape of the result is the default shape `[0]` of a fresh handle. -/
theorem empty_mps_skip_bears_no_behaviour (rt : Runtime) (size : List Int)
    (dtype_opt : Option ScalarType) (layout_opt : Option Layout) (device_opt : Option Device)
    (pin_memory_opt : Option Bool) (memory_format_opt : Option MemoryFormat)
    (allocator : MPSAllocator)
    (hnn : ∀ d ∈ size, 0 ≤ d)
    (hl : layout_or_default layout_opt = Layout.Strided)
    (hdev : rt.debug = false ∨ (device_or_default rt device_opt).type = DeviceType.MPS) :
    (∀ (any_size : List Int) (any_layout : Option Layout) (any_device : Option Device),
      empty_mps rt any_size dtype_opt any_layout any_device pin_memory_opt memory_format_opt
        allocator
      = empty_mps_always_set rt any_size dtype_opt any_layout any_device pin_memory_opt
        memory_format_opt allocator) ∧
    (∃ t u,
      (empty_mps rt size dtype_opt layout_opt device_opt pin_memory_opt memory_format_opt
        allocator).1 = .ok t ∧
      (empty_mps_always_set rt size dtype_opt layout_opt device_opt pin_memory_opt
        memory_format_opt allocator).1 = .ok u ∧
      t.sizes = u.sizes ∧ t.strides = u.strides ∧ t.numel = u.numel ∧ t.sizes = size) ∧
    ((rt.debug = false ∨ rt.default_device.type = DeviceType.MPS) →
      ∃ t, (empty_mps rt [0] none none none none none allocator).1 = .ok t ∧
        t.sizes = (make_tensor t.storage DispatchKey.MPS t.dtype).sizes ∧ t.sizes = [0]) := by
  have hall : ∀ (any_size : List Int) (any_layout : Option Layout) (any_device : Option Device),
      empty_mps rt any_size dtype_opt any_layout any_device pin_memory_opt memory_format_opt
        allocator
      = empty_mps_always_set rt any_size dtype_opt any_layout any_device pin_memory_opt
        memory_format_opt allocator := by
    intro any_size any_layout any_device
    simp only [empty_mps, empty_mps_always_set]
    generalize TORCH_INTERNAL_ASSERT_DEBUG_ONLY rt
      ((device_or_default rt any_device).type == DeviceType.MPS) = c1
    generalize TORCH_CHECK_NOT_IMPLEMENTED (layout_or_default any_layout == Layout.Strided) = c2
    generalize check_size_nonnegative any_size = c3
    cases c1 with
    | error e => rfl
    | ok _ =>
      cases c2 with
      | error e => rfl
      | ok _ =>
        cases c3 with
        | error e => rfl
        | ok _ =>
          by_cases hs : any_size = [0]
          · subst hs
            rfl
          · simp only [skip_test_of_ne any_size hs, if_true]
  refine ⟨hall, ?_, ?_⟩
  · refine ⟨_, _, by rw [empty_mps_of_checks_pass rt size dtype_opt layout_opt device_opt
      pin_memory_opt memory_format_opt allocator hdev hl hnn], by rw [← hall,
      empty_mps_of_checks_pass rt size dtype_opt layout_opt device_opt
      pin_memory_opt memory_format_opt allocator hdev hl hnn], rfl, rfl, rfl, rfl⟩
  · intro hdef
    exact ⟨_, by rw [empty_mps_of_checks_pass rt [0] none none none none none allocator hdef rfl
      (by decide)], rfl, rfl⟩

/-- C10, witness: the shape `[0]` with default options in a production
build. -/
theorem empty_mps_skip_bears_no_behaviour_witness :
    (empty_mps production [0] none none none none none fresh
      = empty_mps_always_set production [0] none none none none none fresh) ∧
    ∃ t, (empty_mps production [0] none none none none none fresh).1 = .ok t ∧
      t.sizes = [0] :=
  have h := empty_mps_skip_bears_no_behaviour production [0] none none none none none fresh
    (by decide) rfl (Or.inl rfl)
  ⟨h.1 [0] none none, (h.2.2 (Or.inl rfl)).elim (fun t ht => ⟨t, ht.1, ht.2.2⟩)⟩

/-! ## The storage-size rule of `empty_strided_mps` -/

theorem offset_le_span (index size stride : List Int) (hv : valid_index index size = true)
    (hs : ∀ s ∈ stride, 0 ≤ s) :
    offset index stride ≤ (List.zipWith (fun d s => (d - 1) * s) size stride).sum := by
  induction index generalizing size stride with
  | nil =>
    cases size with
    | nil => simp [offset]
    | cons d sz => simp [valid_index] at hv
  | cons i idx ih =>
    cases size with
    | nil => simp [valid_index] at hv
    | cons d sz =>
      cases stride with
      | nil => simp [offset]
      | cons s st =>
        simp only [valid_index, Bool.and_eq_true, decide_eq_true_eq] at hv
        have hs0 : 0 ≤ s := hs s (List.mem_cons_self _ _)
        have hrest := ih sz st hv.2 (fun x hx => hs x (List.mem_cons_of_mem _ hx))
        have hhead : i * s ≤ (d - 1) * s := mul_le_mul_of_nonneg_right (by omega) hs0
        simp only [offset, List.zipWith_cons_cons, List.sum_cons] at hrest ⊢
        exact add_le_add hhead hrest

theorem valid_last_index (size : List Int) (h : ∀ d ∈ size, 1 ≤ d) :
    valid_index (last_index size) size = true := by
  induction size with
  | nil => rfl
  | cons d sz ih =>
    have hd : 1 ≤ d := h d (List.mem_cons_self _ _)
    have hrest := ih (fun x hx => h x (List.mem_cons_of_mem _ hx))
    simp only [last_index, List.map_cons, valid_index, Bool.and_eq_true, decide_eq_true_eq]
    exact ⟨⟨by omega, by omega⟩, hrest⟩

theorem offset_last_index (size stride : List Int) :
    offset (last_index size) stride = (List.zipWith (fun d s => (d - 1) * s) size stride).sum := by
  induction size generalizing stride with
  | nil => simp [offset, last_index]
  | cons d sz ih =>
    cases stride with
    | nil => simp [offset, last_index]
    | cons s st =>
      have hrest := ih st
      simp only [offset, last_index, List.map_cons, List.zipWith_cons_cons, List.sum_cons]
        at hrest ⊢
      rw [hrest]

theorem empty_strided_mps_of_mps (rt : Runtime) (size stride : List Int) (dtype : ScalarType)
    (device_opt : Option Device) (allocator : MPSAllocator)
    (hdev : (device_or_default rt device_opt).is_mps = true) :
    empty_strided_mps rt size stride dtype device_opt allocator
      = (.ok
          { storage :=
              { size_bytes := computeStorageNbytes size stride (itemsize dtype),
                data_ptr := ⟨allocator.requests.length⟩, resizable := true },
            key := DispatchKey.MPS, dtype := dtype, sizes := size, strides := stride,
            numel := multiply_integers size },
         ⟨allocator.requests ++ [computeStorageNbytes size stride (itemsize dtype)]⟩) := by
  simp only [empty_strided_mps, TORCH_INTERNAL_ASSERT, hdev, if_true]
  rfl

theorem empty_strided_mps_of_not_mps (rt : Runtime) (size stride : List Int) (dtype : ScalarType)
    (device_opt : Option Device) (allocator : MPSAllocator)
    (hdev : (device_or_default rt device_opt).is_mps = false) :
    empty_strided_mps rt size stride dtype device_opt allocator
      = (.error Error.InternalAssert, allocator) := by
  simp [empty_strided_mps, TORCH_INTERNAL_ASSERT, hdev]

/-! ## The claims about `empty_strided_mps` and about the overloads -/

/-- C4: for every shape and stride of equal length, with every dimension at
least 1 and every stride non-negative, and every dtype (the resolved device
being MPS), `empty_strided_mps` returns a handle with exactly the given shape
and stride whose storage byte size is
`itemsize(dtype) × (1 + Σ_i (shape_i − 1) × stride_i)`; that size covers the
offset of every valid index tuple and is reached by one, so it is the
smallest such span. -/
theorem empty_strided_mps_shape_stride_size (rt : Runtime) (size stride : List Int)
    (dtype : ScalarType) (device_opt : Option Device) (allocator : MPSAllocator)
    (_hlen : size.length = stride.length)
    (hdim : ∀ d ∈ size, 1 ≤ d)
    (hstr : ∀ s ∈ stride, 0 ≤ s)
    (hdev : (device_or_default rt device_opt).is_mps = true) :
    ∃ t, (empty_strided_mps rt size stride dtype device_opt allocator).1 = .ok t ∧
      t.sizes = size ∧ t.strides = stride ∧
      t.storage.size_bytes
        = itemsize dtype * (1 + (List.zipWith (fun d s => (d - 1) * s) size stride).sum) ∧
      (∀ index, valid_index index size = true →
        itemsize dtype * (offset index stride + 1) ≤ t.storage.size_bytes) ∧
      (∃ index, valid_index index size = true ∧
        itemsize dtype * (offset index stride + 1) = t.storage.size_bytes) := by
  refine ⟨_, by rw [empty_strided_mps_of_mps rt size stride dtype device_opt allocator hdev],
    rfl, rfl, rfl, ?_, ?_⟩
  · intro index hv
    show _ ≤ itemsize dtype * (1 + (List.zipWith (fun d s => (d - 1) * s) size stride).sum)
    have h := offset_le_span index size stride hv hstr
    exact mul_le_mul_of_nonneg_left (by omega) (le_of_lt (itemsize_pos dtype))
  · refine ⟨last_index size, valid_last_index size hdim, ?_⟩
    show _ = itemsize dtype * (1 + (List.zipWith (fun d s => (d - 1) * s) size stride).sum)
    rw [offset_last_index, add_comm]

/-- C4, witness: the shape `[2, 3]` with the stride `[4, 1]` of float32 on the
MPS device. -/
theorem empty_strided_mps_shape_stride_size_witness :
    ∃ t, (empty_strided_mps production [2, 3] [4, 1] ScalarType.Float (some mps) fresh).1
        = .ok t ∧
      t.sizes = [2, 3] ∧ t.strides = [4, 1] ∧
      t.storage.size_bytes = itemsize ScalarType.Float
        * (1 + (List.zipWith (fun d s => (d - 1) * s) [2, 3] [4, 1]).sum) ∧
      (∀ index, valid_index index [2, 3] = true →
        itemsize ScalarType.Float * (offset index [4, 1] + 1) ≤ t.storage.size_bytes) ∧
      (∃ index, valid_index index [2, 3] = true ∧
        itemsize ScalarType.Float * (offset index [4, 1] + 1) = t.storage.size_bytes) :=
  empty_strided_mps_shape_stride_size production [2, 3] [4, 1] ScalarType.Float (some mps) fresh
    rfl (by decide) (by decide) rfl

/-- C5, as amended: on the MPS device `empty_strided_mps(shape=[2,3],
stride=[3,1], float32)` succeeds with a buffer of at least 24 bytes, and
`empty_strided_mps(shape=[2,3], stride=[1,2], float32)` succeeds with a
buffer that covers the offset of every valid index tuple and whose size is
exactly 24 bytes, the same as `product(shape) × itemsize`. -/
theorem empty_strided_mps_float32_examples (rt : Runtime) (allocator : MPSAllocator) :
    (∃ t, (empty_strided_mps rt [2, 3] [3, 1] ScalarType.Float (some mps) allocator).1 = .ok t ∧
      24 ≤ t.storage.size_bytes) ∧
    (∃ t, (empty_strided_mps rt [2, 3] [1, 2] ScalarType.Float (some mps) allocator).1 = .ok t ∧
      (∀ index, valid_index index [2, 3] = true →
        itemsize ScalarType.Float * (offset index [1, 2] + 1) ≤ t.storage.size_bytes) ∧
      t.storage.size_bytes = 24 ∧
      t.storage.size_bytes = ([2, 3] : List Int).prod * itemsize ScalarType.Float) := by
  have h31 : computeStorageNbytes [2, 3] [3, 1] (itemsize ScalarType.Float) = 24 := by decide
  have h12 : computeStorageNbytes [2, 3] [1, 2] (itemsize ScalarType.Float) = 24 := by decide
  have hprod : ([2, 3] : List Int).prod * itemsize ScalarType.Float = 24 := by decide
  refine ⟨⟨_, by rw [empty_strided_mps_of_mps rt [2, 3] [3, 1] ScalarType.Float (some mps)
    allocator rfl], le_of_eq h31.symm⟩, ⟨_, by rw [empty_strided_mps_of_mps rt [2, 3] [1, 2]
    ScalarType.Float (some mps) allocator rfl], ?_, h12, h12.trans hprod.symm⟩⟩
  intro index hv
  have h := offset_le_span index [2, 3] [1, 2] hv (by decide)
  show _ ≤ computeStorageNbytes [2, 3] [1, 2] (itemsize ScalarType.Float)
  have h4 : itemsize ScalarType.Float = 4 := rfl
  have hsum : (List.zipWith (fun d s => (d - 1) * s) ([2, 3] : List Int) [1, 2]).sum = 5 := by
    decide
  rw [h12, h4]
  omega

/-- C5, counterexample: with the transposed stride `[1, 2]` the buffer of the
shape `[2, 3]` of float32 is 24 bytes, which is `product(shape) × itemsize`:
its size does not differ from it. -/
theorem empty_strided_mps_transposed_is_24_bytes :
    ∃ t, (empty_strided_mps production [2, 3] [1, 2] ScalarType.Float (some mps) fresh).1
        = .ok t ∧
      t.storage.size_bytes = 24 ∧
      ¬ (t.storage.size_bytes ≠ ([2, 3] : List Int).prod * itemsize ScalarType.Float) :=
  ⟨_, rfl, by decide, by decide⟩

/-- C6, as amended: in a production build `empty_mps` raises no error
because of the device, its result being the same for every device (its
device check is a debug-only assertion, which a debug build does raise for a
device that is not MPS); `empty_strided_mps` checks the device by an
internal assertion that is active in every build, so for a device that is not
MPS it fails with the assertion error in a production build too, without any
allocation request. -/
theorem device_check_by_build (rt : Runtime) (hprod : rt.debug = false) :
    (∀ (size : List Int) (dtype_opt : Option ScalarType) (layout_opt : Option Layout)
      (device1 device2 : Option Device) (pin_memory_opt : Option Bool)
      (memory_format_opt : Option MemoryFormat) (allocator : MPSAllocator),
      empty_mps rt size dtype_opt layout_opt device1 pin_memory_opt memory_format_opt allocator
      = empty_mps rt size dtype_opt layout_opt device2 pin_memory_opt memory_format_opt
        allocator) ∧
    (∀ (size : List Int) (dtype_opt : Option ScalarType) (layout_opt : Option Layout)
      (device_opt : Option Device) (pin_memory_opt : Option Bool)
      (memory_format_opt : Option MemoryFormat) (allocator : MPSAllocator),
      (empty_mps rt size dtype_opt layout_opt device_opt pin_memory_opt memory_format_opt
        allocator).1 ≠ .error Error.InternalAssert) ∧
    (∀ (size stride : List Int) (dtype : ScalarType) (device_opt : Option Device)
      (allocator : MPSAllocator), (device_or_default rt device_opt).is_mps = false →
      empty_strided_mps rt size stride dtype device_opt allocator
      = (.error Error.InternalAssert, allocator)) ∧
    (∀ (dbg : Runtime) (size : List Int) (dtype_opt : Option ScalarType)
      (layout_opt : Option Layout) (device_opt : Option Device) (pin_memory_opt : Option Bool)
      (memory_format_opt : Option MemoryFormat) (allocator : MPSAllocator),
      dbg.debug = true → (device_or_default dbg device_opt).type ≠ DeviceType.MPS →
      empty_mps dbg size dtype_opt layout_opt device_opt pin_memory_opt memory_format_opt
        allocator = (.error Error.InternalAssert, allocator)) := by
  refine ⟨?_, ?_, ?_, ?_⟩
  · intro size dtype_opt layout_opt device1 device2 pin_memory_opt memory_format_opt allocator
    simp only [empty_mps, TORCH_INTERNAL_ASSERT_DEBUG_ONLY, hprod]
    rfl
  · intro size dtype_opt layout_opt device_opt pin_memory_opt memory_format_opt allocator h
    by_cases hl : layout_or_default layout_opt = Layout.Strided
    · by_cases hnn : ∀ d ∈ size, 0 ≤ d
      · rw [empty_mps_of_checks_pass rt size dtype_opt layout_opt device_opt pin_memory_opt
          memory_format_opt allocator (Or.inl hprod) hl hnn] at h
        exact Except.noConfusion h
      · have hneg : ∃ d ∈ size, d < 0 := by
          push_neg at hnn
          exact hnn
        rw [empty_mps_of_negative rt size dtype_opt layout_opt device_opt pin_memory_opt
          memory_format_opt allocator (Or.inl hprod) hl hneg] at h
        exact absurd (Except.error.inj h) (by decide)
    · rw [empty_mps_of_layout_fails rt size dtype_opt layout_opt device_opt pin_memory_opt
        memory_format_opt allocator (Or.inl hprod) hl] at h
      exact absurd (Except.error.inj h) (by decide)
  · intro size stride dtype device_opt allocator hdev
    exact empty_strided_mps_of_not_mps rt size stride dtype device_opt allocator hdev
  · intro dbg size dtype_opt layout_opt device_opt pin_memory_opt memory_format_opt allocator
      hd hm
    exact empty_mps_of_assert_fails dbg size dtype_opt layout_opt device_opt pin_memory_opt
      memory_format_opt allocator hd hm

/-- C6, witness: the production build, with the CPU device given to both
operations. -/
theorem device_check_by_build_witness :
    empty_mps production [2, 3] none none (some cpu) none none fresh
      = empty_mps production [2, 3] none none (some mps) none none fresh ∧
    empty_strided_mps production [2, 3] [3, 1] ScalarType.Float (some cpu) fresh
      = (.error Error.InternalAssert, fresh) :=
  have h := device_check_by_build production rfl
  ⟨h.1 [2, 3] none none (some cpu) (some mps) none none fresh,
    h.2.2.1 [2, 3] [3, 1] ScalarType.Float (some cpu) fresh rfl⟩

/-- C6, counterexample: in a production build, `empty_strided_mps` with the
CPU device raises the internal assertion error, while the same call with the
MPS device succeeds: the error is raised because of the device mismatch. -/
theorem empty_strided_mps_asserts_in_production :
    production.debug = false ∧
    (device_or_default production (some cpu)).is_mps = false ∧
    (empty_strided_mps production [2, 3] [3, 1] ScalarType.Float (some cpu) fresh).1
      = .error Error.InternalAssert ∧
    (∃ t, (empty_strided_mps production [2, 3] [3, 1] ScalarType.Float (some mps) fresh).1
      = .ok t) :=
  ⟨rfl, rfl, rfl, _, rfl⟩

end ATen
